import Mathlib

/-!
# Verification of the valguard runtime type-and-constraint layer

The repository ships only its test suite under `src/`; the `valguard`
package itself (values, constraints, the subsumption engine `implies`,
and `ConstrainedValueDict`) is not present. All definitions below are
therefore modelled from the specification (`spec.md`), cross-checked
against the expectations encoded in the test files
(`src/tests/test_value.py`, `src/tests/test_constraint.py`,
`src/tests/test_constrained_value_dict.py`, `src/tests/test_messages.py`).

Python floats are embedded as rationals plus explicit non-finite
markers (`PyFloat`); the operations the spec performs on floats
(comparison, equality, widening of integers) are exact on the inputs
exercised here, so the rational embedding is faithful for the claims.
-/

namespace Valguard

/-- Modelled from the spec: a Python float payload — either a finite
number (embedded as a rational) or one of the non-finite values
±infinity and NaN, which `FloatValue` must reject at construction. -/
inductive PyFloat where
  | finite (q : ℚ)
  | inf
  | negInf
  | nan
deriving DecidableEq

/-- Whether a Python float payload is finite. -/
def PyFloat.isFinite : PyFloat → Bool
  | .finite _ => true
  | _ => false

/-- Modelled from the spec: the rendering of a float payload used in the
"expected finite float" diagnostic (`str(value)` in Python). -/
def PyFloat.render : PyFloat → String
  | .finite q => toString q
  | .inf => "inf"
  | .negInf => "-inf"
  | .nan => "nan"

/-- Modelled from the spec: a raw primitive input offered to a Value
constructor. Each constructor of `Raw` stands for one exact Python
runtime type; `bool` and `int` are distinct constructors because the
spec requires an exact-type check (a boolean is never accepted where an
integer is expected, despite `bool` subclassing `int` in Python).
`none` and `obj` stand for inputs of any other runtime type. -/
inductive Raw where
  | int (n : ℤ)
  | float (f : PyFloat)
  | bool (b : Bool)
  | str (s : String)
  | none
  | obj
deriving DecidableEq

/-- Python's type name for a raw input, as interpolated into
validation-error messages. -/
def Raw.typeName : Raw → String
  | .int _ => "int"
  | .float _ => "float"
  | .bool _ => "bool"
  | .str _ => "str"
  | .none => "NoneType"
  | .obj => "object"

/-- Python's `repr` of a raw input, as interpolated into
validation-error messages (strings quoted, booleans capitalised). -/
def Raw.render : Raw → String
  | .int n => toString n
  | .float f => f.render
  | .bool b => if b then "True" else "False"
  | .str s => "'" ++ s ++ "'"
  | .none => "None"
  | .obj => "<object>"

/-- Modelled from the spec: a validated, immutable Value. One concrete
variant per payload type; `floatV` stores only finite floats (hence a
plain rational) because construction rejects non-finite payloads. -/
inductive Value where
  | intV (n : ℤ)
  | floatV (q : ℚ)
  | boolV (b : Bool)
  | strV (s : String)
deriving DecidableEq

/-- Modelled from the spec: validation errors raised by Value
construction and constraint checks. Constructors record the structured
information the spec says each diagnostic carries. -/
inductive VErr where
  | invalidType (rendered : String) (gotType : String) (expected : String)
  | nonFiniteFloat (rendered : String)
  | notAValue (rendered : String)
  | wrongKind (expected : String) (gotRendered : String)
  | outOfBounds (shown : ℚ) (lo hi : ℚ)
  | invalidLiteral (lit : String) (allowed : Finset String)
deriving DecidableEq

/-- Modelled from the spec: the message of the distinct non-finite-float
validation failure, identifying the offending value
(`"Invalid value: expected finite float, got inf"` and friends). -/
def VErr.nonFiniteMsg (rendered : String) : String :=
  "Invalid value: expected finite float, got " ++ rendered

/-- Modelled from the spec: `IntValue(raw)` — exact-type check on the
raw input; succeeds exactly on Python ints (booleans excluded). -/
def IntValue.validate : Raw → Except VErr Value
  | .int n => .ok (.intV n)
  | r => .error (.invalidType r.render r.typeName "int")

/-- Modelled from the spec: `FloatValue(raw)` — exact-type check, and
additionally non-finite payloads (±infinity, NaN) are rejected with the
distinct finite-float diagnostic. -/
def FloatValue.validate : Raw → Except VErr Value
  | .float (.finite q) => .ok (.floatV q)
  | .float f => .error (.nonFiniteFloat f.render)
  | r => .error (.invalidType r.render r.typeName "float")

/-- Modelled from the spec: `BoolValue(raw)` — exact-type check. -/
def BoolValue.validate : Raw → Except VErr Value
  | .bool b => .ok (.boolV b)
  | r => .error (.invalidType r.render r.typeName "bool")

/-- Modelled from the spec: `StrValue(raw)` — exact-type check. -/
def StrValue.validate : Raw → Except VErr Value
  | .str s => .ok (.strV s)
  | r => .error (.invalidType r.render r.typeName "str")

/-- Modelled from the spec: Value equality (`__eq__` between two
Values) — true only when the concrete variant matches and the payloads
are equal. -/
def Value.eq : Value → Value → Bool
  | .intV a, .intV b => decide (a = b)
  | .floatV a, .floatV b => decide (a = b)
  | .boolV a, .boolV b => decide (a = b)
  | .strV a, .strV b => decide (a = b)
  | _, _ => false

/-- Modelled from the spec: an arbitrary Python object offered on the
right of `==` — either a Value or a non-Value (raw primitive or other
object). -/
inductive PyObj where
  | val (v : Value)
  | raw (r : Raw)
deriving DecidableEq

/-- Modelled from the spec: equality of a Value against an arbitrary
object; a Value compares unequal to anything that is not a Value
instance (Python falls back to identity after both sides return
NotImplemented). -/
def Value.eqPy (v : Value) : PyObj → Bool
  | .val w => Value.eq v w
  | .raw _ => false

/-- Modelled from the spec: the two accessor-misuse error conditions,
each carrying a fixed message. -/
inductive AccErr where
  | implicitConversion
  | typeMismatch
deriving DecidableEq

/-- Modelled from the spec: the fixed messages of the accessor-misuse
conditions. -/
def AccErr.msg : AccErr → String
  | .implicitConversion => "Implicit type conversion not permitted. Use `.value` instead."
  | .typeMismatch => "Incompatible accessor"

/-- Modelled from the spec: `__bool__` on any Value — always fails with
the ImplicitConversion condition. -/
def Value.dunderBool (_ : Value) : Except AccErr Bool :=
  .error .implicitConversion

/-- Modelled from the spec: `__int__` on any Value — always fails with
the ImplicitConversion condition. -/
def Value.dunderInt (_ : Value) : Except AccErr ℤ :=
  .error .implicitConversion

/-- Modelled from the spec: `__float__` on any Value — always fails
with the ImplicitConversion condition. -/
def Value.dunderFloat (_ : Value) : Except AccErr ℚ :=
  .error .implicitConversion

/-- Modelled from the spec: the `as_bool` accessor — payload on a
BoolValue, TypeMismatch on every other variant. -/
def Value.as_bool : Value → Except AccErr Bool
  | .boolV b => .ok b
  | _ => .error .typeMismatch

/-- Modelled from the spec: the `as_int` accessor. -/
def Value.as_int : Value → Except AccErr ℤ
  | .intV n => .ok n
  | _ => .error .typeMismatch

/-- Modelled from the spec: the `as_float` accessor. -/
def Value.as_float : Value → Except AccErr ℚ
  | .floatV q => .ok q
  | _ => .error .typeMismatch

/-- Modelled from the spec: the `as_str` accessor. -/
def Value.as_str : Value → Except AccErr String
  | .strV s => .ok s
  | _ => .error .typeMismatch

/-- Modelled from the spec: the nine constraint kinds of the fixed,
closed hierarchy (§3); a bare class tag is one of these kinds. -/
inductive CKls where
  | any
  | numeric
  | int
  | float
  | bool
  | interval
  | boundedInt
  | boundedFloat
  | literalStr
deriving DecidableEq

/-- Modelled from the spec: a concrete constraint instance. Interval
bounds are the float-widened numeric bounds (rationals in this
embedding); a literal-string constraint holds its deduplicated set of
literals. -/
inductive ConstraintI where
  | anyC
  | numericC
  | intC
  | floatC
  | boolC
  | intervalC (lo hi : ℚ)
  | boundedIntC (lo hi : ℚ)
  | boundedFloatC (lo hi : ℚ)
  | literalStrC (s : Finset String)
deriving DecidableEq

/-- The kind of a concrete constraint instance. -/
def ConstraintI.kind : ConstraintI → CKls
  | .anyC => .any
  | .numericC => .numeric
  | .intC => .int
  | .floatC => .float
  | .boolC => .bool
  | .intervalC _ _ => .interval
  | .boundedIntC _ _ => .boundedInt
  | .boundedFloatC _ _ => .boundedFloat
  | .literalStrC _ => .literalStr

/-- Python `repr` of a Value, as echoed in wrong-kind diagnostics. The
float payload is rendered via its rational embedding. -/
def Value.render : Value → String
  | .intV n => "IntValue(" ++ toString n ++ ")"
  | .floatV q => "FloatValue(" ++ toString q ++ ")"
  | .boolV b => "BoolValue(" ++ (if b then "True" else "False") ++ ")"
  | .strV s => "StrValue('" ++ s ++ "')"

/-- Modelled from the spec: `to_float` on the numeric variants — the
payload widened to a float (exact in the rational embedding); used by
interval constraints for bound comparison. Non-numeric variants never
reach it in the modelled code paths, so they map to 0 here. -/
def Value.to_float : Value → ℚ
  | .intV n => (n : ℚ)
  | .floatV q => q
  | .boolV _ => 0
  | .strV _ => 0

/-- Modelled from the spec (§3 domain table, §4.2): `validate` of each
concrete constraint on a Value — pass-through on success, a structured
validation error otherwise. Interval-family constraints first narrow
the payload type (base Interval: any numeric; BoundedInt: integers
only; BoundedFloat: floats only), then compare the float-widened
magnitude against the closed bounds. -/
def ConstraintI.validate : ConstraintI → Value → Except VErr Value
  | .anyC, v => .ok v
  | .numericC, v =>
    match v with
    | .intV _ | .floatV _ => .ok v
    | _ => .error (.wrongKind "a numeric" v.render)
  | .intC, v =>
    match v with
    | .intV _ => .ok v
    | _ => .error (.wrongKind "an integer" v.render)
  | .floatC, v =>
    match v with
    | .floatV _ => .ok v
    | _ => .error (.wrongKind "a float" v.render)
  | .boolC, v =>
    match v with
    | .boolV _ => .ok v
    | _ => .error (.wrongKind "a boolean" v.render)
  | .intervalC lo hi, v =>
    match v with
    | .intV _ | .floatV _ =>
      if lo ≤ v.to_float ∧ v.to_float ≤ hi then .ok v
      else .error (.outOfBounds v.to_float lo hi)
    | _ => .error (.wrongKind "a numeric" v.render)
  | .boundedIntC lo hi, v =>
    match v with
    | .intV _ =>
      if lo ≤ v.to_float ∧ v.to_float ≤ hi then .ok v
      else .error (.outOfBounds v.to_float lo hi)
    | _ => .error (.wrongKind "an integer" v.render)
  | .boundedFloatC lo hi, v =>
    match v with
    | .floatV _ =>
      if lo ≤ v.to_float ∧ v.to_float ≤ hi then .ok v
      else .error (.outOfBounds v.to_float lo hi)
    | _ => .error (.wrongKind "a float" v.render)
  | .literalStrC lits, v =>
    match v with
    | .strV s => if s ∈ lits then .ok v else .error (.invalidLiteral s lits)
    | _ => .error (.wrongKind "a literal string" v.render)

/-- Modelled from the spec (§4.3): a constraint descriptor offered to
`implies` — a bare class tag (the union over all instantiations of that
kind) or a concrete instance. -/
inductive CDesc where
  | cls (k : CKls)
  | inst (c : ConstraintI)
deriving DecidableEq

/-- The kind of a descriptor. -/
def CDesc.kind : CDesc → CKls
  | .cls k => k
  | .inst c => c.kind

/-- Whether a kind is non-parametric (Any, Numeric, Int, Float, Bool). -/
def CKls.isNp : CKls → Bool
  | .any | .numeric | .int | .float | .bool => true
  | _ => false

/-- Whether a kind belongs to the interval family. -/
def CKls.isIv : CKls → Bool
  | .interval | .boundedInt | .boundedFloat => true
  | _ => false

/-- Modelled from the spec (§4.3 case 1): subsumption between two
non-parametric kinds — equal kinds, target Any, or Int/Float into
Numeric. -/
def npImplies (k1 k2 : CKls) : Bool :=
  decide (k1 = k2) || decide (k2 = .any) ||
    ((decide (k1 = .int) || decide (k1 = .float)) && decide (k2 = .numeric))

/-- Modelled from the spec (§4.3 case 3, and §8 for instances):
subsumption from an interval-family descriptor into a non-parametric
kind — Any and Numeric always accept; BoundedInt collapses into Int and
BoundedFloat into Float. -/
def ivNpImplies (k1 k2 : CKls) : Bool :=
  decide (k2 = .any) || decide (k2 = .numeric) ||
    (decide (k1 = .boundedInt) && decide (k2 = .int)) ||
    (decide (k1 = .boundedFloat) && decide (k2 = .float))

/-- Bounds of an interval-family instance, if any. -/
def ConstraintI.ivBounds : ConstraintI → Option (ℚ × ℚ)
  | .intervalC lo hi => some (lo, hi)
  | .boundedIntC lo hi => some (lo, hi)
  | .boundedFloatC lo hi => some (lo, hi)
  | _ => none

/-- Literal set of a literal-string instance, if any. -/
def ConstraintI.litSet : ConstraintI → Option (Finset String)
  | .literalStrC s => some s
  | _ => none

/-- Modelled from the spec (§4.3 decision table, completed for
interval-instance-vs-non-parametric by the §8 transitivity example):
the subsumption engine `implies(a, b)` — true iff every value admitted
by descriptor `a` is admitted by descriptor `b`, decided purely from
kinds, class/instance discrimination, bound comparison and literal-set
inclusion. -/
def implies (a b : CDesc) : Bool :=
  let ka := a.kind
  let kb := b.kind
  if ka.isNp then
    if kb.isNp then npImplies ka kb else false
  else if ka.isIv then
    if kb.isNp then ivNpImplies ka kb
    else if kb.isIv then
      match a, b with
      | _, .cls _ => decide (ka = kb) || decide (kb = .interval)
      | .cls _, .inst _ => false
      | .inst c1, .inst c2 =>
        match c1.ivBounds, c2.ivBounds with
        | some (lo1, hi1), some (lo2, hi2) =>
          decide (lo2 ≤ lo1) && decide (hi1 ≤ hi2) &&
            (decide (ka = kb) || decide (kb = .interval))
        | _, _ => false
    else false
  else
    if kb = .any then true
    else if kb = .literalStr then
      match a, b with
      | _, .cls _ => true
      | .cls _, .inst _ => false
      | .inst c1, .inst c2 =>
        match c1.litSet, c2.litSet with
        | some s1, some s2 => decide (s1 ⊆ s2)
        | _, _ => false
    else false

/-- Modelled from the spec (§3, §4.4): a constrained mapping — one
fixed constraint instance plus the key→value association in insertion
order. -/
structure ConstrainedValueDict (K : Type) where
  constraint : ConstraintI
  data : List (K × Value)
deriving DecidableEq

/-- Python-dict write semantics on an insertion-ordered association
list: an existing key is updated in place, a new key is appended. -/
def updateAssoc [DecidableEq K] (l : List (K × Value)) (k : K) (v : Value) :
    List (K × Value) :=
  if l.any (fun p => p.1 = k) then
    l.map (fun p => if p.1 = k then (k, v) else p)
  else
    l ++ [(k, v)]

/-- Modelled from the spec (§4.4): construction of a constrained
mapping from initial data — each entry is validated against the
constraint before the container becomes visible; the first failure
aborts construction entirely, so no partially-populated container is
observable. -/
def ConstrainedValueDict.mk' [DecidableEq K] (c : ConstraintI)
    (init : List (K × Value)) :
    Except VErr (ConstrainedValueDict K) :=
  match init with
  | [] => .ok ⟨c, []⟩
  | (k, v) :: rest =>
    match c.validate v with
    | .error e => .error e
    | .ok _ =>
      match ConstrainedValueDict.mk' c rest with
      | .error e => .error e
      | .ok d => .ok ⟨c, (k, v) :: d.data⟩

/-- Modelled from the spec (§4.4): a single-key write — the new value
is validated against the stored constraint before committing; on
failure the error is reported and the container is left in its prior
state. -/
def ConstrainedValueDict.setItem [DecidableEq K]
    (d : ConstrainedValueDict K) (k : K) (v : Value) :
    ConstrainedValueDict K × Option VErr :=
  match d.constraint.validate v with
  | .ok _ => (⟨d.constraint, updateAssoc d.data k v⟩, Option.none)
  | .error e => (d, some e)

/-- The container invariant: every stored value passes the container's
constraint. -/
def ConstrainedValueDict.inv (d : ConstrainedValueDict K) : Prop :=
  ∀ p ∈ d.data, (d.constraint.validate p.2).isOk = true

/-- The five non-parametric constraint kinds, used to quantify claims
about them. -/
inductive NpKind where
  | any
  | numeric
  | int
  | float
  | bool
deriving DecidableEq, Fintype

/-- The class tag of a non-parametric kind. -/
def NpKind.toKls : NpKind → CKls
  | .any => .any
  | .numeric => .numeric
  | .int => .int
  | .float => .float
  | .bool => .bool

/-- The (unique, parameterless) instance of a non-parametric kind. -/
def NpKind.toInst : NpKind → ConstraintI
  | .any => .anyC
  | .numeric => .numericC
  | .int => .intC
  | .float => .floatC
  | .bool => .boolC

/-- A non-parametric kind as a descriptor, in class-tag form
(`asCls = true`) or instance form (`asCls = false`). -/
def NpKind.desc (k : NpKind) (asCls : Bool) : CDesc :=
  if asCls then .cls k.toKls else .inst k.toInst

/-- The three interval-family kinds, used to quantify claims about
concrete interval instances. -/
inductive IvKind where
  | interval
  | boundedInt
  | boundedFloat
deriving DecidableEq, Fintype

/-- The concrete interval-family instance of a kind with the given
bounds. -/
def IvKind.toC : IvKind → ℚ → ℚ → ConstraintI
  | .interval => .intervalC
  | .boundedInt => .boundedIntC
  | .boundedFloat => .boundedFloatC

/-- C2: for every pair of non-parametric constraint descriptors drawn
from Any, Numeric, Int, Float, Bool — each given either as a class tag
or as an instance, the two forms behaving identically — `implies(a, b)`
is true iff the kinds are equal, or `b` is Any, or `a` is Int or Float
and `b` is Numeric. -/
theorem C2_non_parametric_implies :
    ∀ (k1 k2 : NpKind) (f1 f2 : Bool),
      implies (k1.desc f1) (k2.desc f2) =
        (decide (k1 = k2) || decide (k2 = .any) ||
          ((decide (k1 = .int) || decide (k1 = .float)) &&
            decide (k2 = .numeric))) := by
  decide

/-- C9: subsumption composes transitively across the chain
`BoundedIntConstraint(0,10) → IntConstraint → NumericConstraint`,
including the step from a concrete interval-family instance to a
non-parametric class tag. -/
theorem C9_subsumption_transitivity_chain :
    implies (.inst (.boundedIntC 0 10)) (.cls .int) = true ∧
    implies (.cls .int) (.cls .numeric) = true ∧
    implies (.inst (.boundedIntC 0 10)) (.cls .numeric) = true := by
  decide

/-- C7: on every Value, the generic conversions `__bool__`, `__int__`
and `__float__` always fail with the fixed ImplicitConversion message,
and every variant-specific accessor invoked on a Value of a different
variant fails with the fixed TypeMismatch message "Incompatible
accessor". -/
theorem C7_conversion_and_accessor_errors :
    ∀ (v : Value) (n : ℤ) (q : ℚ) (b : Bool) (s : String),
      Value.dunderBool v = .error .implicitConversion ∧
      Value.dunderInt v = .error .implicitConversion ∧
      Value.dunderFloat v = .error .implicitConversion ∧
      AccErr.msg .implicitConversion =
        "Implicit type conversion not permitted. Use `.value` instead." ∧
      AccErr.msg .typeMismatch = "Incompatible accessor" ∧
      Value.as_bool (.intV n) = .error .typeMismatch ∧
      Value.as_bool (.floatV q) = .error .typeMismatch ∧
      Value.as_bool (.strV s) = .error .typeMismatch ∧
      Value.as_int (.floatV q) = .error .typeMismatch ∧
      Value.as_int (.boolV b) = .error .typeMismatch ∧
      Value.as_int (.strV s) = .error .typeMismatch ∧
      Value.as_float (.intV n) = .error .typeMismatch ∧
      Value.as_float (.boolV b) = .error .typeMismatch ∧
      Value.as_float (.strV s) = .error .typeMismatch ∧
      Value.as_str (.intV n) = .error .typeMismatch ∧
      Value.as_str (.floatV q) = .error .typeMismatch ∧
      Value.as_str (.boolV b) = .error .typeMismatch := by
  intro v n q b s
  exact ⟨rfl, rfl, rfl, rfl, rfl, rfl, rfl, rfl, rfl, rfl, rfl, rfl,
    rfl, rfl, rfl, rfl, rfl⟩

/-- C10: a Value never compares equal to an object that is not a Value
instance; in particular `IntValue(5) != 5` and
`FloatValue(2.0) != "2.0"`. -/
theorem C10_value_not_equal_to_non_value :
    ∀ (v : Value) (r : Raw),
      Value.eqPy v (.raw r) = false ∧
      Value.eqPy (.intV 5) (.raw (.int 5)) = false ∧
      Value.eqPy (.floatV 2) (.raw (.str "2.0")) = false := by
  intro v r
  exact ⟨rfl, rfl, rfl⟩

/-- C1: between two concrete interval-family instances, `implies` is
true iff bound containment holds (`b.lo ≤ a.lo` and `a.hi ≤ b.hi`) and
either both are the same concrete subtype or `b` is a base
IntervalConstraint instance; in particular a BoundedIntConstraint
instance never implies a BoundedFloatConstraint instance nor vice
versa, for any bounds. -/
theorem C1_interval_instance_implies :
    ∀ (k1 k2 : IvKind) (lo1 hi1 lo2 hi2 : ℚ),
      (implies (.inst (k1.toC lo1 hi1)) (.inst (k2.toC lo2 hi2)) = true ↔
        ((lo2 ≤ lo1 ∧ hi1 ≤ hi2) ∧ (k1 = k2 ∨ k2 = .interval))) ∧
      implies (.inst (.boundedIntC lo1 hi1)) (.inst (.boundedFloatC lo2 hi2)) =
        false ∧
      implies (.inst (.boundedFloatC lo1 hi1)) (.inst (.boundedIntC lo2 hi2)) =
        false := by
  intro k1 k2 lo1 hi1 lo2 hi2
  refine ⟨?_, ?_, ?_⟩
  · cases k1 <;> cases k2 <;>
      simp [implies, IvKind.toC, CDesc.kind, ConstraintI.kind, CKls.isNp,
        CKls.isIv, ConstraintI.ivBounds, and_assoc]
  · simp [implies, CDesc.kind, ConstraintI.kind, CKls.isNp, CKls.isIv,
      ConstraintI.ivBounds]
  · simp [implies, CDesc.kind, ConstraintI.kind, CKls.isNp, CKls.isIv,
      ConstraintI.ivBounds]

/-- C3: for LiteralStr descriptors — instance vs instance is literal-set
inclusion; any LiteralStr descriptor implies the bare class tag; the
bare class tag never implies a concrete instance. -/
theorem C3_literal_str_implies :
    (∀ s1 s2 : Finset String,
      implies (.inst (.literalStrC s1)) (.inst (.literalStrC s2)) = true ↔
        s1 ⊆ s2) ∧
    (∀ s : Finset String,
      implies (.inst (.literalStrC s)) (.cls .literalStr) = true) ∧
    implies (.cls .literalStr) (.cls .literalStr) = true ∧
    (∀ s : Finset String,
      implies (.cls .literalStr) (.inst (.literalStrC s)) = false) := by
  refine ⟨?_, ?_, rfl, ?_⟩
  · intro s1 s2
    simp [implies, CDesc.kind, ConstraintI.kind, CKls.isNp, CKls.isIv,
      ConstraintI.litSet]
  · intro s
    rfl
  · intro s
    rfl

/-- C8: Value equality holds only when both the concrete variant and
the payload match; across different concrete variants it is always
false, even for numerically equal payloads such as `IntValue(1)` vs
`FloatValue(1.0)` or `BoolValue(True)` vs `IntValue(1)`. -/
theorem C8_value_equality_exactness :
    ∀ (a b : Value) (n : ℤ) (q : ℚ) (c : Bool) (s : String),
      (Value.eq a b = true → a = b) ∧
      Value.eq (.intV n) (.floatV q) = false ∧
      Value.eq (.intV n) (.boolV c) = false ∧
      Value.eq (.intV n) (.strV s) = false ∧
      Value.eq (.floatV q) (.intV n) = false ∧
      Value.eq (.floatV q) (.boolV c) = false ∧
      Value.eq (.floatV q) (.strV s) = false ∧
      Value.eq (.boolV c) (.intV n) = false ∧
      Value.eq (.boolV c) (.floatV q) = false ∧
      Value.eq (.boolV c) (.strV s) = false ∧
      Value.eq (.strV s) (.intV n) = false ∧
      Value.eq (.strV s) (.floatV q) = false ∧
      Value.eq (.strV s) (.boolV c) = false ∧
      Value.eq (.intV 1) (.floatV 1) = false ∧
      Value.eq (.boolV true) (.intV 1) = false := by
  intro a b n q c s
  refine ⟨?_, rfl, rfl, rfl, rfl, rfl, rfl, rfl, rfl, rfl, rfl, rfl,
    rfl, rfl, rfl⟩
  cases a <;> cases b <;> simp [Value.eq]

/-- Witness for C1: `implies(BoundedIntConstraint(2,8),
IntervalConstraint(0,10))` is true, by the bound-containment rule. -/
theorem C1_interval_instance_implies_witness :
    implies (.inst (.boundedIntC 2 8)) (.inst (.intervalC 0 10)) = true :=
  ((C1_interval_instance_implies .boundedInt .interval 2 8 0 10).1).mpr
    ⟨⟨by norm_num, by norm_num⟩, Or.inr rfl⟩

/-- Witness for C3: `implies(LiteralStrConstraint(["A","B"]),
LiteralStrConstraint(["A","B","C"]))` is true, by the subset rule. -/
theorem C3_literal_str_implies_witness :
    implies (.inst (.literalStrC {"A", "B"}))
      (.inst (.literalStrC {"A", "B", "C"})) = true :=
  (C3_literal_str_implies.1 {"A", "B"} {"A", "B", "C"}).mpr (by decide)

/-- Witness for C8: applying the only-if direction of Value equality at
two equal IntValues. -/
theorem C8_value_equality_exactness_witness :
    (Value.intV 5 : Value) = .intV 5 :=
  (C8_value_equality_exactness (.intV 5) (.intV 5) 0 0 true "").1 (by decide)

/-- C4: `IntervalConstraint(lo, hi).validate(v)` succeeds (returning
`v` unchanged) iff `v` is an IntValue or FloatValue whose float-widened
magnitude lies in the closed interval `[lo, hi]`; this includes
intervals with negative bounds, and every BoolValue or StrValue is
rejected with a validation error. -/
theorem C4_interval_validate_domain :
    ∀ (lo hi : ℚ) (v : Value),
      (ConstraintI.validate (.intervalC lo hi) v = .ok v ↔
        ((∃ n : ℤ, v = .intV n ∧ lo ≤ (n : ℚ) ∧ (n : ℚ) ≤ hi) ∨
         (∃ q : ℚ, v = .floatV q ∧ lo ≤ q ∧ q ≤ hi))) ∧
      (∀ b, ∃ e, ConstraintI.validate (.intervalC lo hi) (.boolV b) =
        .error e) ∧
      (∀ s, ∃ e, ConstraintI.validate (.intervalC lo hi) (.strV s) =
        .error e) ∧
      ConstraintI.validate (.intervalC (-10) (-5)) (.intV (-6)) =
        .ok (.intV (-6)) ∧
      ConstraintI.validate (.intervalC (-10) (-5)) (.floatV (-19 / 2)) =
        .ok (.floatV (-19 / 2)) := by
  intro lo hi v
  refine ⟨?_, fun b => ⟨_, rfl⟩, fun s => ⟨_, rfl⟩, ?_, ?_⟩
  · rcases v with n | q | b | s
    · simp only [ConstraintI.validate, Value.to_float]
      split_ifs with h
      · simp [h]
      · simp [h]
    · simp only [ConstraintI.validate, Value.to_float]
      split_ifs with h
      · simp [h]
      · simp [h]
    · simp [ConstraintI.validate]
    · simp [ConstraintI.validate]
  · norm_num [ConstraintI.validate, Value.to_float]
  · norm_num [ConstraintI.validate, Value.to_float]

/-- Witness for C4: `IntValue(10)` is accepted by
`IntervalConstraint(0, 10)`, via the membership direction. -/
theorem C4_interval_validate_domain_witness :
    ConstraintI.validate (.intervalC 0 10) (.intV 10) = .ok (.intV 10) :=
  ((C4_interval_validate_domain 0 10 (.intV 10)).1).mpr
    (Or.inl ⟨10, rfl, by norm_num, by norm_num⟩)

/-- C6: constructing a Value variant from a raw input succeeds iff the
input's runtime type is exactly the variant's payload type (booleans
are rejected by IntValue, integers by FloatValue), raising a validation
error otherwise; FloatValue additionally rejects ±infinity and NaN with
a distinct validation failure identifying the offending value. -/
theorem C6_value_construction_exact_type :
    ∀ r : Raw,
      ((∃ v, IntValue.validate r = .ok v) ↔ ∃ n, r = .int n) ∧
      ((∃ e, IntValue.validate r = .error e) ↔ ¬∃ n, r = .int n) ∧
      ((∃ v, BoolValue.validate r = .ok v) ↔ ∃ b, r = .bool b) ∧
      ((∃ e, BoolValue.validate r = .error e) ↔ ¬∃ b, r = .bool b) ∧
      ((∃ v, StrValue.validate r = .ok v) ↔ ∃ s, r = .str s) ∧
      ((∃ e, StrValue.validate r = .error e) ↔ ¬∃ s, r = .str s) ∧
      ((∃ v, FloatValue.validate r = .ok v) ↔ ∃ q, r = .float (.finite q)) ∧
      ((∃ e, FloatValue.validate r = .error e) ↔
        ¬∃ q, r = .float (.finite q)) ∧
      (∀ b, ∃ e, IntValue.validate (.bool b) = .error e) ∧
      (∃ e, FloatValue.validate (.int 1) = .error e) ∧
      FloatValue.validate (.float .inf) = .error (.nonFiniteFloat "inf") ∧
      FloatValue.validate (.float .negInf) = .error (.nonFiniteFloat "-inf") ∧
      FloatValue.validate (.float .nan) = .error (.nonFiniteFloat "nan") ∧
      VErr.nonFiniteMsg "inf" =
        "Invalid value: expected finite float, got inf" ∧
      (∀ x g t, VErr.nonFiniteFloat x ≠ VErr.invalidType x g t) := by
  intro r
  refine ⟨?_, ?_, ?_, ?_, ?_, ?_, ?_, ?_, fun b => ⟨_, rfl⟩, ⟨_, rfl⟩,
    rfl, rfl, rfl, rfl, fun x g t => by simp⟩
  · cases r <;> simp [IntValue.validate]
  · cases r <;> simp [IntValue.validate]
  · cases r <;> simp [BoolValue.validate]
  · cases r <;> simp [BoolValue.validate]
  · cases r <;> simp [StrValue.validate]
  · cases r <;> simp [StrValue.validate]
  · rcases r with n | f | b | s | _ | _ <;>
      first
      | (cases f <;> simp [FloatValue.validate])
      | simp [FloatValue.validate]
  · rcases r with n | f | b | s | _ | _ <;>
      first
      | (cases f <;> simp [FloatValue.validate])
      | simp [FloatValue.validate]

/-- Witness for C6: the raw integer 5 is accepted by IntValue, via the
membership direction. -/
theorem C6_value_construction_exact_type_witness :
    ∃ v, IntValue.validate (.int 5) = .ok v :=
  (C6_value_construction_exact_type (.int 5)).1.mpr ⟨5, rfl⟩

/-- Construction of a constrained mapping either succeeds on exactly
the given entries — all of which validate — or fails with an error
caused by some entry that fails validation. -/
theorem mk_cases {K : Type} [DecidableEq K] (c : ConstraintI) :
    ∀ init : List (K × Value),
      (ConstrainedValueDict.mk' c init = .ok ⟨c, init⟩ ∧
        ∀ p ∈ init, (c.validate p.2).isOk = true) ∨
      ((∃ e, ConstrainedValueDict.mk' (K := K) c init = .error e) ∧
        ∃ p ∈ init, ∃ e, c.validate p.2 = .error e) := by
  intro init
  induction init with
  | nil => exact Or.inl ⟨rfl, by simp⟩
  | cons p rest ih =>
    obtain ⟨k, v⟩ := p
    cases hv : c.validate v with
    | error e =>
      refine Or.inr ⟨⟨e, ?_⟩, (k, v), by simp, e, hv⟩
      simp [ConstrainedValueDict.mk', hv]
    | ok w =>
      cases ih with
      | inl hok =>
        refine Or.inl ⟨?_, ?_⟩
        · simp [ConstrainedValueDict.mk', hv, hok.1]
        · intro q hq
          rcases List.mem_cons.mp hq with h | h
          · subst h; simp [hv, Except.isOk, Except.toBool]
          · exact hok.2 q h
      | inr herr =>
        obtain ⟨⟨e, he⟩, q, hq, e2, he2⟩ := herr
        refine Or.inr ⟨⟨e, ?_⟩, q, List.mem_cons_of_mem _ hq, e2, he2⟩
        simp [ConstrainedValueDict.mk', hv, he]

/-- An entry of the written association list is either the freshly
written pair or an entry of the original list. -/
theorem mem_updateAssoc {K : Type} [DecidableEq K] {l : List (K × Value)}
    {k : K} {v : Value} {p : K × Value} (h : p ∈ updateAssoc l k v) :
    p = (k, v) ∨ p ∈ l := by
  unfold updateAssoc at h
  split at h
  · obtain ⟨q, hq, hif⟩ := List.mem_map.mp h
    by_cases hk : q.1 = k
    · rw [if_pos hk] at hif
      exact Or.inl hif.symm
    · rw [if_neg hk] at hif
      exact Or.inr (hif ▸ hq)
  · rcases List.mem_append.mp h with h | h
    · exact Or.inr h
    · exact Or.inl (by simpa using h)

/-- C5: the constrained mapping's invariant — every stored value
satisfies the container's one fixed constraint at every observable
point: a successful construction stores the given constraint and
satisfies the invariant; construction fails (entirely — no container
is produced) iff some initial entry fails validation; a single-key
write preserves the invariant; a failed write reports an error and
leaves the container in its prior state; and a write fails iff the
constraint rejects the new value. -/
theorem C5_constrained_dict_invariant {K : Type} [DecidableEq K]
    (c : ConstraintI) (init : List (K × Value))
    (d : ConstrainedValueDict K) (k : K) (v : Value) :
    (ConstrainedValueDict.mk' c init = .ok d →
      d.constraint = c ∧ d.inv) ∧
    ((∃ e, ConstrainedValueDict.mk' (K := K) c init = .error e) ↔
      ∃ p ∈ init, ∃ e, c.validate p.2 = .error e) ∧
    (d.inv → (d.setItem k v).1.inv) ∧
    ((d.setItem k v).2.isSome → (d.setItem k v).1 = d) ∧
    ((d.setItem k v).2.isSome ↔ ∃ e, d.constraint.validate v = .error e) := by
  refine ⟨?_, ⟨?_, ?_⟩, ?_, ?_, ⟨?_, ?_⟩⟩
  · intro h
    rcases mk_cases c init with ⟨hok, hall⟩ | ⟨⟨e, he⟩, _⟩
    · rw [h] at hok
      obtain rfl : d = ⟨c, init⟩ := by
        simpa using hok
      exact ⟨rfl, hall⟩
    · rw [h] at he
      exact absurd he (by simp)
  · rintro ⟨e, he⟩
    rcases mk_cases c init with ⟨hok, _⟩ | ⟨_, hbad⟩
    · rw [hok] at he
      exact absurd he (by simp)
    · exact hbad
  · rintro ⟨p, hp, e, he⟩
    rcases mk_cases c init with ⟨_, hall⟩ | ⟨⟨e2, he2⟩, _⟩
    · have := hall p hp
      rw [he] at this
      simp [Except.isOk, Except.toBool] at this
    · exact ⟨e2, he2⟩
  · intro hinv
    unfold ConstrainedValueDict.setItem
    cases hv : d.constraint.validate v with
    | ok w =>
      intro p hp
      rcases mem_updateAssoc hp with rfl | hmem
      · simp [hv, Except.isOk, Except.toBool]
      · exact hinv p hmem
    | error e => exact hinv
  · intro hsome
    unfold ConstrainedValueDict.setItem at hsome ⊢
    cases hv : d.constraint.validate v with
    | ok w => rw [hv] at hsome; simp at hsome
    | error e => rfl
  · intro hsome
    unfold ConstrainedValueDict.setItem at hsome
    cases hv : d.constraint.validate v with
    | ok w => rw [hv] at hsome; simp at hsome
    | error e => exact ⟨e, rfl⟩
  · rintro ⟨e, he⟩
    unfold ConstrainedValueDict.setItem
    rw [he]
    rfl

/-- Witness for C5: a successful construction under
`IntervalConstraint(0, 100)` satisfies the invariant, and a rejected
write under `IntervalConstraint(0, 50)` leaves the container
unchanged. -/
theorem C5_constrained_dict_invariant_witness :
    ((⟨.intervalC 0 100, [(1, .intV 10)]⟩ :
        ConstrainedValueDict ℤ).constraint = .intervalC 0 100 ∧
      (⟨.intervalC 0 100, [(1, .intV 10)]⟩ : ConstrainedValueDict ℤ).inv) ∧
    (ConstrainedValueDict.setItem (K := ℤ)
        ⟨.intervalC 0 50, []⟩ 1 (.intV 75)).1 = ⟨.intervalC 0 50, []⟩ :=
  ⟨(C5_constrained_dict_invariant (K := ℤ) (.intervalC 0 100)
      [(1, .intV 10)] ⟨.intervalC 0 100, [(1, .intV 10)]⟩ 1 (.intV 10)).1
      (by rfl),
   (C5_constrained_dict_invariant (K := ℤ) (.intervalC 0 50) []
      ⟨.intervalC 0 50, []⟩ 1 (.intV 75)).2.2.2.1 (by rfl)⟩

end Valguard
